import Mathlib

/-!
Verification of the ChromaPrint backend (src/main.py).

The core under verification is the cost estimator `estimate_cost`
(POST /api/estimate) together with the quote submission handler
`submit_quote` (POST /api/quote).  Python floats are embedded as
rationals (ℚ); Python's `round(x, 2)` (round-half-to-even at two
decimal places) is embedded as `round2`.
-/

namespace ChromaPrint

/-! ### Rounding: Python's round(x, 2) on rationals -/

/-- Round a rational to the nearest integer, ties to even
(the behaviour of Python's builtin `round`). -/
def roundHalfEven (q : ℚ) : ℤ :=
  let n := q.floor
  let f := q - n
  if f < 1/2 then n
  else if 1/2 < f then n + 1
  else if n % 2 = 0 then n else n + 1

/-- Python's `round(x, 2)`: round to the nearest multiple of 1/100,
ties to even. -/
def round2 (q : ℚ) : ℚ := (roundHalfEven (q * 100) : ℚ) / 100

/-! ### Request model (class EstimateRequest, src/main.py lines 27-35) -/

/-- Embedding of the `EstimateRequest` pydantic model: the request body of
POST /api/estimate.  `model_volume_mm3` is `Optional[float]`. -/
structure EstimateRequest where
  length_mm : ℚ
  width_mm : ℚ
  height_mm : ℚ
  material : String
  finish : String
  complexity : ℚ
  infill : ℚ
  model_volume_mm3 : Option ℚ

/-- The bounds enforced by the pydantic field validators
(gt=0 on the dimensions, ge=0.5/le=2.0 on complexity, ge=0.05/le=1.0 on
infill, ge=0 on model_volume_mm3): the estimator is only reachable on
requests satisfying them. -/
def validRequest (req : EstimateRequest) : Prop :=
  0 < req.length_mm ∧ 0 < req.width_mm ∧ 0 < req.height_mm ∧
  1/2 ≤ req.complexity ∧ req.complexity ≤ 2 ∧
  1/20 ≤ req.infill ∧ req.infill ≤ 1 ∧
  match req.model_volume_mm3 with
  | some v => 0 ≤ v
  | none => True

/-! ### Lookup tables (src/main.py lines 80-93) -/

/-- MATERIAL_RATE_PER_CM3_INR dict: INR per cm³ by material name. -/
def MATERIAL_RATE_PER_CM3_INR (m : String) : Option ℚ :=
  if m = "PLA" then some 4
  else if m = "ABS" then some 5
  else if m = "Resin" then some 12
  else if m = "Nylon" then some 9
  else if m = "PETG" then some 6
  else none

/-- FINISH_MULTIPLIER dict: price multiplier by finish name. -/
def FINISH_MULTIPLIER (f : String) : Option ℚ :=
  if f = "Standard" then some 1
  else if f = "Smooth" then some (115/100)
  else if f = "High-Gloss" then some (13/10)
  else if f = "Matte" then some (11/10)
  else none

/-! ### The estimator (def estimate_cost, src/main.py lines 172-210),
decomposed one definition per local binding of the Python function. -/

/-- Bounding-box approximation branch:
`bbox_mm3 * (0.02 + 0.78 * req.infill)` (lines 178-180). -/
def bbox_volume_mm3 (req : EstimateRequest) : ℚ :=
  req.length_mm * req.width_mm * req.height_mm * (2/100 + 78/100 * req.infill)

/-- Volume derivation (lines 175-180): the model-volume path is taken
exactly when `model_volume_mm3` is present (not None) and strictly
positive, and clamps the infill to [0.05, 1.0]. -/
def volume_mm3 (req : EstimateRequest) : ℚ :=
  match req.model_volume_mm3 with
  | some v =>
      if 0 < v then v * max (5/100) (min 1 req.infill)
      else bbox_volume_mm3 req
  | none => bbox_volume_mm3 req

/-- `volume_cm3 = volume_mm3 / 1000.0` (line 182). -/
def volume_cm3 (req : EstimateRequest) : ℚ := volume_mm3 req / 1000

/-- `material_rate = MATERIAL_RATE_PER_CM3_INR.get(req.material, 5.0)`
(line 184). -/
def material_rate (req : EstimateRequest) : ℚ :=
  (MATERIAL_RATE_PER_CM3_INR req.material).getD 5

/-- `finish_mult = FINISH_MULTIPLIER.get(req.finish, 1.0)` (line 185). -/
def finish_mult (req : EstimateRequest) : ℚ :=
  (FINISH_MULTIPLIER req.finish).getD 1

/-- `base_cost = volume_cm3 * material_rate` (line 187). -/
def base_cost (req : EstimateRequest) : ℚ := volume_cm3 req * material_rate req

/-- `machine_time_hours = max(0.5, volume_cm3 / 8.0)` (line 188). -/
def machine_time_hours (req : EstimateRequest) : ℚ :=
  max (1/2) (volume_cm3 req / 8)

/-- `machine_cost = machine_time_hours * 120.0` (line 189). -/
def machine_cost (req : EstimateRequest) : ℚ := machine_time_hours req * 120

/-- `handling = 80.0` (line 190). -/
def handling : ℚ := 80

/-- `color_match = 60.0` (line 191). -/
def color_match : ℚ := 60

/-- `subtotal = (base_cost + machine_cost + handling + color_match) *
req.complexity` (line 193). -/
def subtotal (req : EstimateRequest) : ℚ :=
  (base_cost req + machine_cost req + handling + color_match) * req.complexity

/-- `estimated_cost = max(150.0, subtotal * finish_mult)` (line 194),
before the final rounding at line 210. -/
def raw_estimated_cost (req : EstimateRequest) : ℚ :=
  max 150 (subtotal req * finish_mult req)

/-- The `line_items` mapping inside the breakdown (lines 202-207). -/
structure LineItems where
  material : ℚ
  machine : ℚ
  handling : ℚ
  skin_tone_color_match : ℚ

/-- The `breakdown` record (lines 196-208). -/
structure Breakdown where
  volume_cm3 : ℚ
  material_rate_inr_per_cm3 : ℚ
  machine_time_hours : ℚ
  finish_multiplier : ℚ
  complexity : ℚ
  line_items : LineItems

/-- The JSON body returned by POST /api/estimate (line 210). -/
structure EstimateResponse where
  currency : String
  estimated_cost : ℚ
  breakdown : Breakdown

/-- The whole estimator: volume derivation, table lookups, cost
components, aggregation and per-field rounding, exactly as in
src/main.py lines 172-210. -/
def estimate_cost (req : EstimateRequest) : EstimateResponse :=
  { currency := "INR"
    estimated_cost := round2 (raw_estimated_cost req)
    breakdown :=
      { volume_cm3 := round2 (volume_cm3 req)
        material_rate_inr_per_cm3 := material_rate req
        machine_time_hours := round2 (machine_time_hours req)
        finish_multiplier := finish_mult req
        complexity := req.complexity
        line_items :=
          { material := round2 (base_cost req)
            machine := round2 (machine_cost req)
            handling := handling
            skin_tone_color_match := color_match } } }

/-! ### Quote submission (def submit_quote, src/main.py lines 215-234),
with the document store made explicit.  The estimate payload is an
arbitrary JSON dict, kept as a type parameter. -/

/-- `DEMO_TOKEN = "demo-token-123"` (line 48). -/
def DEMO_TOKEN : String := "demo-token-123"

/-- Embedding of the `QuoteRequest` pydantic model (lines 37-41). -/
structure QuoteRequest (α : Type) where
  email : String
  name : Option String
  estimate : α
  notes : Option String

/-- The document written to the `quote` collection (lines 220-227). -/
structure QuoteDoc (α : Type) where
  email : String
  name : Option String
  estimate : α
  notes : Option String
  status : String
  created_at : Nat

/-- The success body returned by POST /api/quote. -/
structure QuoteResponse where
  ok : Bool
  id : Option String
  message : String

/-- POST /api/quote with the database present: compares the
`x-demo-token` header (None when absent) with DEMO_TOKEN, raising
HTTP 401 on mismatch before anything is written, otherwise inserting
the quote document and answering ok=true.  The store is the list of
documents in the `quote` collection; `now` stands for
`datetime.utcnow()`; the returned id is the one `create_document`
assigns to the inserted document. -/
def submit_quote {α : Type} (body : QuoteRequest α) (x_demo_token : Option String)
    (now : Nat) (store : List (QuoteDoc α)) :
    Except Nat QuoteResponse × List (QuoteDoc α) :=
  if x_demo_token ≠ some DEMO_TOKEN then
    (Except.error 401, store)
  else
    let data : QuoteDoc α :=
      { email := body.email
        name := body.name
        estimate := body.estimate
        notes := body.notes
        status := "submitted"
        created_at := now }
    (Except.ok
      { ok := true
        id := some (toString store.length)
        message := "Quote submitted. Final price will be emailed (simulated)." },
      store ++ [data])

/-! ### Rounding lemmas -/

theorem ratFloor_eq_floor (q : ℚ) : q.floor = ⌊q⌋ := by
  rw [Rat.floor_def', Rat.floor_def]

theorem floor_le_roundHalfEven (q : ℚ) : ⌊q⌋ ≤ roundHalfEven q := by
  simp only [roundHalfEven, ratFloor_eq_floor]
  split_ifs <;> omega

theorem roundHalfEven_le_floor_add_one (q : ℚ) : roundHalfEven q ≤ ⌊q⌋ + 1 := by
  simp only [roundHalfEven, ratFloor_eq_floor]
  split_ifs <;> omega

theorem roundHalfEven_mono {q r : ℚ} (h : q ≤ r) :
    roundHalfEven q ≤ roundHalfEven r := by
  rcases lt_or_eq_of_le (Int.floor_le_floor h) with hf | hf
  · calc roundHalfEven q ≤ ⌊q⌋ + 1 := roundHalfEven_le_floor_add_one q
      _ ≤ ⌊r⌋ := by omega
      _ ≤ roundHalfEven r := floor_le_roundHalfEven r
  · simp only [roundHalfEven, ratFloor_eq_floor, ← hf]
    have hfr : q - (⌊q⌋ : ℚ) ≤ r - (⌊q⌋ : ℚ) := by linarith
    split_ifs <;> first | omega | (exfalso; linarith)

theorem round2_mono {q r : ℚ} (h : q ≤ r) : round2 q ≤ round2 r := by
  have h100 : q * 100 ≤ r * 100 := by linarith
  have := roundHalfEven_mono h100
  have hcast : ((roundHalfEven (q * 100) : ℤ) : ℚ) ≤ ((roundHalfEven (r * 100) : ℤ) : ℚ) := by
    exact_mod_cast this
  unfold round2
  linarith

theorem le_round2 (k : ℤ) {q : ℚ} (h : (k : ℚ) ≤ q * 100) :
    (k : ℚ) / 100 ≤ round2 q := by
  have h1 : k ≤ ⌊q * 100⌋ := Int.le_floor.mpr h
  have h2 : k ≤ roundHalfEven (q * 100) := le_trans h1 (floor_le_roundHalfEven _)
  have h3 : (k : ℚ) ≤ (roundHalfEven (q * 100) : ℚ) := by exact_mod_cast h2
  unfold round2
  linarith

theorem round2_int_div_hundred (n : ℤ) : round2 ((n : ℚ) / 100) = (n : ℚ) / 100 := by
  have h1 : ((n : ℚ) / 100) * 100 = (n : ℚ) := by ring
  have h2 : roundHalfEven ((n : ℚ)) = n := by
    simp [roundHalfEven, ratFloor_eq_floor, Int.floor_intCast]
  rw [round2, h1, h2]

/-! ### Concrete scenarios from the specification -/

/-- Scenario A of the specification: a 100mm cube, PLA, Standard finish,
complexity 1.0, infill 0.2, no model volume. -/
def scenarioA : EstimateRequest :=
  { length_mm := 100, width_mm := 100, height_mm := 100
    material := "PLA", finish := "Standard"
    complexity := 1, infill := 2/10, model_volume_mm3 := none }

/-- Scenario B of the specification: model_volume_mm3 = 10000,
infill 0.5, Resin, High-Gloss, complexity 1.5, with arbitrary
bounding-box dimensions. -/
def scenarioB (l w h : ℚ) : EstimateRequest :=
  { length_mm := l, width_mm := w, height_mm := h
    material := "Resin", finish := "High-Gloss"
    complexity := 3/2, infill := 1/2, model_volume_mm3 := some 10000 }

/-- Scenario C of the specification: a 1mm cube, PLA, Standard finish,
complexity 0.5, infill 0.05, no model volume (price floor triggered). -/
def scenarioC : EstimateRequest :=
  { length_mm := 1, width_mm := 1, height_mm := 1
    material := "PLA", finish := "Standard"
    complexity := 1/2, infill := 1/20, model_volume_mm3 := none }

/-- C1: on Scenario A (100mm cube, PLA, Standard, complexity 1.0,
infill 0.2, no model volume) the estimator returns estimated_cost
3484.0 with volume_cm3 176.0, material line item 704.0,
machine_time_hours 22.0 and machine line item 2640.0. -/
theorem c1_scenarioA_breakdown :
    (estimate_cost scenarioA).estimated_cost = 3484 ∧
    (estimate_cost scenarioA).breakdown.volume_cm3 = 176 ∧
    (estimate_cost scenarioA).breakdown.line_items.material = 704 ∧
    (estimate_cost scenarioA).breakdown.machine_time_hours = 22 ∧
    (estimate_cost scenarioA).breakdown.line_items.machine = 2640 := by
  refine ⟨?_, ?_, ?_, ?_, ?_⟩ <;>
  norm_num [scenarioA, estimate_cost, raw_estimated_cost, subtotal, base_cost,
    machine_cost, machine_time_hours, volume_cm3, volume_mm3, bbox_volume_mm3,
    material_rate, finish_mult, MATERIAL_RATE_PER_CM3_INR, FINISH_MULTIPLIER,
    handling, color_match, round2, roundHalfEven, ratFloor_eq_floor,
    max_def, min_def]

/-- C2: with model_volume_mm3 = 10000, infill 0.5, Resin, High-Gloss,
complexity 1.5 and any positive bounding-box dimensions, the estimator
takes the model-volume path (infill clamped to [0.05,1]) and returns
estimated_cost 536.25 with volume_cm3 5.0, material line item 60.0,
machine_time_hours 0.625 (reported as 0.62 after rounding) and machine
line item 75.0. -/
theorem c2_scenarioB_breakdown (l w h : ℚ) (hl : 0 < l) (hw : 0 < w) (hh : 0 < h) :
    (estimate_cost (scenarioB l w h)).estimated_cost = 53625/100 ∧
    (estimate_cost (scenarioB l w h)).breakdown.volume_cm3 = 5 ∧
    (estimate_cost (scenarioB l w h)).breakdown.line_items.material = 60 ∧
    machine_time_hours (scenarioB l w h) = 625/1000 ∧
    (estimate_cost (scenarioB l w h)).breakdown.machine_time_hours = 62/100 ∧
    (estimate_cost (scenarioB l w h)).breakdown.line_items.machine = 75 := by
  refine ⟨?_, ?_, ?_, ?_, ?_, ?_⟩ <;>
  · simp [scenarioB, estimate_cost, raw_estimated_cost, subtotal, base_cost,
      machine_cost, machine_time_hours, volume_cm3, volume_mm3, bbox_volume_mm3,
      material_rate, finish_mult, MATERIAL_RATE_PER_CM3_INR, FINISH_MULTIPLIER,
      handling, color_match]
    try norm_num [round2, roundHalfEven, ratFloor_eq_floor, max_def, min_def,
      Int.fract]

/-- Witness for C2 at dimensions 1 × 1 × 1. -/
theorem c2_scenarioB_breakdown_witness :
    (estimate_cost (scenarioB 1 1 1)).estimated_cost = 53625/100 :=
  (c2_scenarioB_breakdown 1 1 1 (by norm_num) (by norm_num) (by norm_num)).1

/-- C3: every valid input produces an estimated_cost of at least 150.0,
and on Scenario C (1mm cube, PLA, Standard, complexity 0.5, infill 0.05)
the floor is triggered and the estimated_cost is exactly 150.0. -/
theorem c3_price_floor :
    (∀ req : EstimateRequest, validRequest req →
      150 ≤ (estimate_cost req).estimated_cost) ∧
    (estimate_cost scenarioC).estimated_cost = 150 := by
  constructor
  · intro req _
    have h1 : (150 : ℚ) ≤ raw_estimated_cost req := le_max_left _ _
    have h2 : ((15000 : ℤ) : ℚ) ≤ raw_estimated_cost req * 100 := by
      push_cast; linarith
    have h3 := le_round2 15000 h2
    have h4 : ((15000 : ℤ) : ℚ) / 100 = 150 := by norm_num
    rw [h4] at h3
    exact h3
  · norm_num [scenarioC, estimate_cost, raw_estimated_cost, subtotal, base_cost,
      machine_cost, machine_time_hours, volume_cm3, volume_mm3, bbox_volume_mm3,
      material_rate, finish_mult, MATERIAL_RATE_PER_CM3_INR, FINISH_MULTIPLIER,
      handling, color_match, round2, roundHalfEven, ratFloor_eq_floor,
      max_def, min_def]

/-- Witness for C3 at Scenario A. -/
theorem c3_price_floor_witness : 150 ≤ (estimate_cost scenarioA).estimated_cost :=
  c3_price_floor.1 scenarioA (by norm_num [validRequest, scenarioA])

/-! ### Positivity facts about the cost components -/

theorem material_rate_pos (req : EstimateRequest) : 0 < material_rate req := by
  unfold material_rate MATERIAL_RATE_PER_CM3_INR
  split_ifs <;> norm_num

theorem finish_mult_pos (req : EstimateRequest) : 0 < finish_mult req := by
  unfold finish_mult FINISH_MULTIPLIER
  split_ifs <;> norm_num

theorem volume_mm3_nonneg (req : EstimateRequest) (hl : 0 < req.length_mm)
    (hw : 0 < req.width_mm) (hh : 0 < req.height_mm)
    (hi : 1/20 ≤ req.infill) : 0 ≤ volume_mm3 req := by
  have hbb : 0 ≤ bbox_volume_mm3 req := by
    unfold bbox_volume_mm3
    have h1 : 0 < req.length_mm * req.width_mm * req.height_mm := by positivity
    have h2 : (0:ℚ) < 2/100 + 78/100 * req.infill := by nlinarith
    nlinarith
  unfold volume_mm3
  rcases hm : req.model_volume_mm3 with _ | v
  · exact hbb
  · dsimp only
    split_ifs with hv
    · have hclamp : (0:ℚ) < max (5/100) (min 1 req.infill) :=
        lt_of_lt_of_le (by norm_num) (le_max_left _ _)
      exact le_of_lt (mul_pos hv hclamp)
    · exact hbb

theorem machine_cost_ge (req : EstimateRequest) : 60 ≤ machine_cost req := by
  have h1 : (1:ℚ)/2 ≤ machine_time_hours req := le_max_left _ _
  unfold machine_cost
  linarith

theorem base_cost_nonneg (req : EstimateRequest) (h : 0 ≤ volume_mm3 req) :
    0 ≤ base_cost req := by
  have h1 : 0 ≤ volume_cm3 req := by unfold volume_cm3; positivity
  exact mul_nonneg h1 (le_of_lt (material_rate_pos req))

theorem round2_max150_le {x y : ℚ} (h : x ≤ y) :
    round2 (max 150 x) ≤ round2 (max 150 y) :=
  round2_mono (max_le_max le_rfl h)

/-- C4: holding everything else fixed, the estimated cost is monotone
non-decreasing in the complexity multiplier over valid inputs. -/
theorem c4_monotone_complexity (req : EstimateRequest) (c1 c2 : ℚ)
    (h1 : validRequest {req with complexity := c1})
    (h2 : validRequest {req with complexity := c2})
    (hc : c1 ≤ c2) :
    (estimate_cost {req with complexity := c1}).estimated_cost ≤
    (estimate_cost {req with complexity := c2}).estimated_cost := by
  obtain ⟨hl, hw, hh, hc1lo, -, hi1, -, -⟩ := h1
  have hv : 0 ≤ volume_mm3 req :=
    volume_mm3_nonneg {req with complexity := c1} hl hw hh hi1
  have hb : 0 ≤ base_cost req := base_cost_nonneg req hv
  have hm : 60 ≤ machine_cost req := machine_cost_ge req
  have hS : 0 ≤ base_cost req + machine_cost req + handling + color_match := by
    have e80 : handling = 80 := rfl
    have e60 : color_match = 60 := rfl
    linarith
  have hmult : 0 ≤ finish_mult req := le_of_lt (finish_mult_pos req)
  show round2 (max 150
      ((base_cost req + machine_cost req + handling + color_match) * c1 *
        finish_mult req)) ≤
    round2 (max 150
      ((base_cost req + machine_cost req + handling + color_match) * c2 *
        finish_mult req))
  exact round2_max150_le
    (mul_le_mul_of_nonneg_right (mul_le_mul_of_nonneg_left hc hS) hmult)

/-- Witness for C4: Scenario A at complexity 0.5 versus complexity 2. -/
theorem c4_monotone_complexity_witness :
    (estimate_cost {scenarioA with complexity := 1/2}).estimated_cost ≤
    (estimate_cost {scenarioA with complexity := 2}).estimated_cost :=
  c4_monotone_complexity scenarioA (1/2) 2
    (by norm_num [validRequest, scenarioA])
    (by norm_num [validRequest, scenarioA])
    (by norm_num)

/-- C5: with model_volume_mm3 absent and everything else fixed, the
estimated cost is monotone non-decreasing in the infill density over
valid inputs. -/
theorem c5_monotone_infill (req : EstimateRequest) (i1 i2 : ℚ)
    (hnone : req.model_volume_mm3 = none)
    (h1 : validRequest {req with infill := i1})
    (h2 : validRequest {req with infill := i2})
    (hi : i1 ≤ i2) :
    (estimate_cost {req with infill := i1}).estimated_cost ≤
    (estimate_cost {req with infill := i2}).estimated_cost := by
  obtain ⟨hl, hw, hh, hclo, -, -, -, -⟩ := h1
  have e1 : volume_mm3 {req with infill := i1} =
      req.length_mm * req.width_mm * req.height_mm * (2/100 + 78/100 * i1) := by
    simp [volume_mm3, bbox_volume_mm3, hnone]
  have e2 : volume_mm3 {req with infill := i2} =
      req.length_mm * req.width_mm * req.height_mm * (2/100 + 78/100 * i2) := by
    simp [volume_mm3, bbox_volume_mm3, hnone]
  have hbbox : 0 ≤ req.length_mm * req.width_mm * req.height_mm := by positivity
  have hvol : volume_mm3 {req with infill := i1} ≤ volume_mm3 {req with infill := i2} := by
    rw [e1, e2]
    have : 2/100 + 78/100 * i1 ≤ 2/100 + 78/100 * i2 := by linarith
    exact mul_le_mul_of_nonneg_left this hbbox
  have hcm : volume_cm3 {req with infill := i1} ≤ volume_cm3 {req with infill := i2} := by
    unfold volume_cm3
    linarith
  have hrate : 0 ≤ material_rate req := le_of_lt (material_rate_pos req)
  have hbase : base_cost {req with infill := i1} ≤ base_cost {req with infill := i2} := by
    show volume_cm3 {req with infill := i1} * material_rate req ≤
      volume_cm3 {req with infill := i2} * material_rate req
    exact mul_le_mul_of_nonneg_right hcm hrate
  have hmt : machine_time_hours {req with infill := i1} ≤
      machine_time_hours {req with infill := i2} := by
    unfold machine_time_hours
    exact max_le_max le_rfl (by linarith)
  have hmc : machine_cost {req with infill := i1} ≤ machine_cost {req with infill := i2} := by
    unfold machine_cost
    linarith
  have hcpos : 0 ≤ req.complexity := by
    have : (1:ℚ)/2 ≤ req.complexity := hclo
    linarith
  have hmult : 0 ≤ finish_mult req := le_of_lt (finish_mult_pos req)
  show round2 (max 150
      ((base_cost {req with infill := i1} + machine_cost {req with infill := i1} +
        handling + color_match) * req.complexity * finish_mult req)) ≤
    round2 (max 150
      ((base_cost {req with infill := i2} + machine_cost {req with infill := i2} +
        handling + color_match) * req.complexity * finish_mult req))
  refine round2_max150_le (mul_le_mul_of_nonneg_right
    (mul_le_mul_of_nonneg_right ?_ hcpos) hmult)
  linarith

/-- Witness for C5: Scenario A at infill 0.05 versus infill 1. -/
theorem c5_monotone_infill_witness :
    (estimate_cost {scenarioA with infill := 1/20}).estimated_cost ≤
    (estimate_cost {scenarioA with infill := 1}).estimated_cost :=
  c5_monotone_infill scenarioA (1/20) 1 rfl
    (by norm_num [validRequest, scenarioA])
    (by norm_num [validRequest, scenarioA])
    (by norm_num)

/-- Scenario A with `model_volume_mm3` present but equal to 0: the guard
`req.model_volume_mm3 > 0` fails, so the bounding-box path is taken. -/
def scenarioA_zero_model : EstimateRequest :=
  { length_mm := 100, width_mm := 100, height_mm := 100
    material := "PLA", finish := "Standard"
    complexity := 1, infill := 2/10, model_volume_mm3 := some 0 }

/-- C6 counterexample: at a valid input whose model_volume_mm3 is
present with value 0, the reported volume is the bounding-box one
(176 cm³), not the model-volume one (0 cm³), so the claim that any
present non-negative model volume selects the model-volume path is
false. -/
theorem c6_counterexample_zero_model :
    scenarioA_zero_model.model_volume_mm3 = some 0 ∧
    validRequest scenarioA_zero_model ∧
    (estimate_cost scenarioA_zero_model).breakdown.volume_cm3 = 176 ∧
    round2 ((0 : ℚ) * max (5/100) (min 1 scenarioA_zero_model.infill) / 1000) = 0 ∧
    (176 : ℚ) ≠ 0 := by
  refine ⟨rfl, by norm_num [validRequest, scenarioA_zero_model], ?_, ?_, by norm_num⟩
  · simp [scenarioA_zero_model, estimate_cost, volume_cm3, volume_mm3,
      bbox_volume_mm3]
    norm_num [round2, roundHalfEven, ratFloor_eq_floor, Int.fract]
  · norm_num [round2, roundHalfEven, ratFloor_eq_floor, Int.fract, scenarioA_zero_model]

/-- C6 amended: when model_volume_mm3 is present and strictly positive,
the model-volume path is used — the reported volume is
round2(model_volume_mm3 * clamp(infill, 0.05, 1.0) / 1000) — and the
whole response is independent of the bounding-box dimensions. -/
theorem c6_model_volume_path (req : EstimateRequest) (v : ℚ)
    (hsome : req.model_volume_mm3 = some v) (hpos : 0 < v) (l w h : ℚ) :
    (estimate_cost req).breakdown.volume_cm3 =
      round2 (v * max (5/100) (min 1 req.infill) / 1000) ∧
    estimate_cost req =
      estimate_cost { req with length_mm := l, width_mm := w, height_mm := h } := by
  have e1 : volume_mm3 req = v * max (5/100) (min 1 req.infill) := by
    simp [volume_mm3, hsome, hpos]
  have e2 : volume_mm3 { req with length_mm := l, width_mm := w, height_mm := h } =
      v * max (5/100) (min 1 req.infill) := by
    simp [volume_mm3, hsome, hpos]
  constructor
  · show round2 (volume_mm3 req / 1000) = _
    rw [e1]
  · have h1 : volume_cm3 req =
        volume_cm3 { req with length_mm := l, width_mm := w, height_mm := h } := by
      unfold volume_cm3
      rw [e1, e2]
    have h4 : base_cost req =
        base_cost { req with length_mm := l, width_mm := w, height_mm := h } := by
      unfold base_cost
      rw [h1]
      rfl
    have h5 : machine_time_hours req =
        machine_time_hours { req with length_mm := l, width_mm := w, height_mm := h } := by
      unfold machine_time_hours
      rw [h1]
    have h6 : machine_cost req =
        machine_cost { req with length_mm := l, width_mm := w, height_mm := h } := by
      unfold machine_cost
      rw [h5]
    have h8 : raw_estimated_cost req =
        raw_estimated_cost { req with length_mm := l, width_mm := w, height_mm := h } := by
      unfold raw_estimated_cost subtotal
      rw [h4, h6]
      rfl
    unfold estimate_cost
    rw [h1, h4, h5, h6, h8]
    rfl

/-- Witness for C6 at Scenario B with dimensions 2 × 3 × 4 replaced by
7 × 8 × 9. -/
theorem c6_model_volume_path_witness :
    estimate_cost (scenarioB 2 3 4) =
      estimate_cost { scenarioB 2 3 4 with length_mm := 7, width_mm := 8, height_mm := 9 } :=
  (c6_model_volume_path (scenarioB 2 3 4) 10000 rfl (by norm_num) 7 8 9).2

/-- Scenario A with complexity 1.234: a valid input whose complexity
carries more than two decimal places. -/
def scenarioA_complexity1234 : EstimateRequest :=
  { length_mm := 100, width_mm := 100, height_mm := 100
    material := "PLA", finish := "Standard"
    complexity := 1234/1000, infill := 2/10, model_volume_mm3 := none }

/-- C7 counterexample: the `complexity` field of the breakdown is
reported verbatim (1.234), not rounded to two decimal places (1.23), so
the claim that every numeric field of the breakdown is the rounding of
its full-precision value is false. -/
theorem c7_counterexample_complexity :
    validRequest scenarioA_complexity1234 ∧
    (estimate_cost scenarioA_complexity1234).breakdown.complexity = 1234/1000 ∧
    round2 (1234/1000) = 123/100 ∧
    (1234/1000 : ℚ) ≠ 123/100 := by
  refine ⟨by norm_num [validRequest, scenarioA_complexity1234], rfl, ?_, by norm_num⟩
  norm_num [round2, roundHalfEven, ratFloor_eq_floor, Int.fract]

theorem round2_material_rate (req : EstimateRequest) :
    round2 (material_rate req) = material_rate req := by
  unfold material_rate MATERIAL_RATE_PER_CM3_INR
  split_ifs <;> norm_num [round2, roundHalfEven, ratFloor_eq_floor, Int.fract]

theorem round2_finish_mult (req : EstimateRequest) :
    round2 (finish_mult req) = finish_mult req := by
  unfold finish_mult FINISH_MULTIPLIER
  split_ifs <;> norm_num [round2, roundHalfEven, ratFloor_eq_floor, Int.fract]

/-- C7 amended: the estimated cost and the volume, machine-time and
material/machine line items of the breakdown equal their full-precision
values rounded to two decimal places; the material rate, the finish
multiplier and the fixed handling and colour-match charges are emitted
unrounded but always carry at most two decimals, so they too equal
their own rounding; the `complexity` field alone is emitted verbatim
without rounding. -/
theorem c7_rounding (req : EstimateRequest) :
    (estimate_cost req).estimated_cost = round2 (raw_estimated_cost req) ∧
    (estimate_cost req).breakdown.volume_cm3 = round2 (volume_cm3 req) ∧
    (estimate_cost req).breakdown.machine_time_hours =
      round2 (machine_time_hours req) ∧
    (estimate_cost req).breakdown.line_items.material = round2 (base_cost req) ∧
    (estimate_cost req).breakdown.line_items.machine = round2 (machine_cost req) ∧
    (estimate_cost req).breakdown.material_rate_inr_per_cm3 =
      round2 ((estimate_cost req).breakdown.material_rate_inr_per_cm3) ∧
    (estimate_cost req).breakdown.finish_multiplier =
      round2 ((estimate_cost req).breakdown.finish_multiplier) ∧
    (estimate_cost req).breakdown.line_items.handling =
      round2 ((estimate_cost req).breakdown.line_items.handling) ∧
    (estimate_cost req).breakdown.line_items.skin_tone_color_match =
      round2 ((estimate_cost req).breakdown.line_items.skin_tone_color_match) ∧
    (estimate_cost req).breakdown.complexity = req.complexity := by
  refine ⟨rfl, rfl, rfl, rfl, rfl, ?_, ?_, ?_, ?_, rfl⟩
  · exact (round2_material_rate req).symm
  · exact (round2_finish_mult req).symm
  · show handling = round2 handling
    norm_num [handling, round2, roundHalfEven, ratFloor_eq_floor, Int.fract]
  · show color_match = round2 color_match
    norm_num [color_match, round2, roundHalfEven, ratFloor_eq_floor, Int.fract]

/-- C8: an unrecognized material string falls back to (and is reported
with) rate 5.0, and an unrecognized finish string falls back to
multiplier 1.0; the estimator never fails (it is a total function by
construction). -/
theorem c8_unrecognized_fallback :
    (∀ req : EstimateRequest,
      req.material ∉ ["PLA", "ABS", "Resin", "Nylon", "PETG"] →
      (estimate_cost req).breakdown.material_rate_inr_per_cm3 = 5) ∧
    (∀ req : EstimateRequest,
      req.finish ∉ ["Standard", "Smooth", "High-Gloss", "Matte"] →
      (estimate_cost req).breakdown.finish_multiplier = 1) := by
  constructor
  · intro req hm
    simp only [List.mem_cons, List.not_mem_nil, or_false, not_or] at hm
    obtain ⟨n1, n2, n3, n4, n5⟩ := hm
    show material_rate req = 5
    simp [material_rate, MATERIAL_RATE_PER_CM3_INR, n1, n2, n3, n4, n5]
  · intro req hf
    simp only [List.mem_cons, List.not_mem_nil, or_false, not_or] at hf
    obtain ⟨n1, n2, n3, n4⟩ := hf
    show finish_mult req = 1
    simp [finish_mult, FINISH_MULTIPLIER, n1, n2, n3, n4]

/-- A request with material and finish strings outside both tables. -/
def woodRequest : EstimateRequest :=
  { length_mm := 10, width_mm := 10, height_mm := 10
    material := "Wood", finish := "Glossy"
    complexity := 1, infill := 2/10, model_volume_mm3 := none }

/-- Witness for C8 at an unrecognized material. -/
theorem c8_unrecognized_fallback_witness :
    (estimate_cost woodRequest).breakdown.material_rate_inr_per_cm3 = 5 :=
  c8_unrecognized_fallback.1 woodRequest (by simp [woodRequest])

/-- C9: for every input — valid or not, zero-volume included — the
machine time used for costing and the one reported in the breakdown are
both at least half an hour. -/
theorem c9_machine_time_min (req : EstimateRequest) :
    1/2 ≤ machine_time_hours req ∧
    1/2 ≤ (estimate_cost req).breakdown.machine_time_hours := by
  have h1 : (1:ℚ)/2 ≤ machine_time_hours req := le_max_left _ _
  refine ⟨h1, ?_⟩
  have h2 : ((50 : ℤ) : ℚ) ≤ machine_time_hours req * 100 := by
    push_cast; linarith
  have h3 := le_round2 50 h2
  have h4 : ((50 : ℤ) : ℚ) / 100 = 1/2 := by norm_num
  rw [h4] at h3
  exact h3

/-- C10: the quote submission rejects with HTTP 401 exactly when the
x-demo-token header is absent or different from DEMO_TOKEN, leaves the
quote store untouched on that rejection, and answers ok=true when the
token matches. -/
theorem c10_quote_auth {α : Type} (body : QuoteRequest α) (tok : Option String)
    (now : Nat) (store : List (QuoteDoc α)) :
    ((submit_quote body tok now store).1 = Except.error 401 ↔ tok ≠ some DEMO_TOKEN) ∧
    (tok ≠ some DEMO_TOKEN → (submit_quote body tok now store).2 = store) ∧
    (tok = some DEMO_TOKEN →
      ∃ r : QuoteResponse, (submit_quote body tok now store).1 = Except.ok r ∧
        r.ok = true) := by
  unfold submit_quote
  by_cases h : tok = some DEMO_TOKEN
  · refine ⟨?_, ?_, ?_⟩
    · simp [h]
    · intro hne
      exact absurd h hne
    · intro _
      simp only [h, ne_eq, not_true_eq_false, if_neg, ite_false]
      exact ⟨_, rfl, rfl⟩
  · refine ⟨?_, ?_, ?_⟩
    · simp [h]
    · intro _
      simp [h]
    · intro heq
      exact absurd heq h

/-- Witness for C10: an absent header leaves an empty store unchanged. -/
theorem c10_quote_auth_witness :
    (submit_quote (α := Unit)
      { email := "user@example.com", name := none, estimate := (), notes := none }
      none 0 []).2 = ([] : List (QuoteDoc Unit)) :=
  (c10_quote_auth
    { email := "user@example.com", name := none, estimate := (), notes := none }
    none 0 []).2.1 (by simp)

end ChromaPrint
